import Mathlib

/-!
Verification of the keyword-driven intent classification and compensation
negotiation policy of Project_Synapse (src/tools.py, src/agent_core.py).

Python strings are modelled as `List Char`; `str.lower()` is modelled by
mapping `Char.toLower` (exact for the ASCII keywords involved); the Python
substring test `w in s` is modelled by `List.isInfixOf`.  Python `int(x)`
on a nonnegative quotient is floor, modelled by `Nat` division.
`random.choice lst` is modelled by an explicitly passed draw together with
a proof that the draw belongs to `lst`.
-/

namespace Synapse

/-- `message.lower()` on a Python string, as a list of characters. -/
def lc (s : String) : List Char := s.toList.map Char.toLower

/-- `occursIn w m` holds when `w` occurs as a contiguous block inside `m`. -/
def occursIn (w : List Char) : List Char → Bool
  | [] => w.isEmpty
  | c :: rest => w.isPrefixOf (c :: rest) || occursIn w rest

/-- Python `w in m` (substring test) for a keyword `w` against characters `m`. -/
def hasKw (m : List Char) (w : String) : Bool := occursIn w.toList m

/-- Python `any(word in m for word in ws)`. -/
def hasAny (m : List Char) (ws : List String) : Bool := ws.any (hasKw m)

/-! ## Intent classifier (`analyze_customer_situation`, src/tools.py lines 139-264) -/

/-- The tracking-signal keyword list of `analyze_customer_situation`. -/
def tracking_keywords : List String := ["where", "status", "driver", "eta", "time", "location"]

/-- The problem-signal keyword list of `analyze_customer_situation`. -/
def problem_keywords : List String :=
  ["spill", "wrong", "damage", "cold", "missing", "terrible", "awful", "bad", "broken", "packaging"]

/-- `is_tracking_request` of `analyze_customer_situation`: at least one tracking
keyword and no problem keyword in the lowercased message. -/
def is_tracking_request (m : List Char) : Bool :=
  hasAny m tracking_keywords && !(hasAny m problem_keywords)

/-- `is_actual_problem` of `analyze_customer_situation`: at least one problem keyword. -/
def is_actual_problem (m : List Char) : Bool := hasAny m problem_keywords

/-- The three intent labels of the classifier. -/
inductive Intent
  | tracking
  | problem
  | general
  deriving DecidableEq, Repr

/-- The intent decided by the `if / elif / else` chain of
`analyze_customer_situation` (lines 155-231 of src/tools.py). -/
def classifyIntent (msg : String) : Intent :=
  let m := lc msg
  if is_tracking_request m then .tracking
  else if is_actual_problem m then .problem
  else .general

/-- The four places `analyze_customer_situation` could return from: the three
`return` statements of the `if / elif / else` chain, and the severity-classification
block placed after them (lines 233-264 of src/tools.py). -/
inductive Branch
  | tracking
  | problem
  | general
  | deadDynamic
  deriving DecidableEq, Repr

/-- The `if / elif / else` chain of `analyze_customer_situation` as a partial
control flow step: `some b` means the chain executed `return` from branch `b`,
`none` means control fell through past the chain. -/
def analyzeStep (msg : String) : Option Branch :=
  let m := lc msg
  if is_tracking_request m then some .tracking
  else if is_actual_problem m then some .problem
  else some .general

/-- Full control flow of `analyze_customer_situation`: if the `if / elif / else`
chain does not return, execution continues into the trailing severity-classification
block (`Branch.deadDynamic`). -/
def analyze_customer_situation (msg : String) : Branch :=
  (analyzeStep msg).getD .deadDynamic

/-! ## Issue categorizers -/

/-- The issue categorizer inside the problem branch of `analyze_customer_situation`
(lines 174-186 of src/tools.py): ordered first-match over keyword sets, default
`"general_problem"`. -/
def analyze_issue_type (msg : String) : String :=
  let m := lc msg
  if hasAny m ["spill", "damage", "leak", "mess"] then "spilled_food"
  else if hasAny m ["wrong", "different", "mistake"] then "wrong_order"
  else if hasAny m ["packaging", "broken", "damaged"] then "packaging_issue"
  else if hasAny m ["cold", "lukewarm"] then "cold_food"
  else if hasAny m ["missing", "forgot"] then "missing_items"
  else if hasAny m ["quality", "bad", "terrible"] then "quality_issue"
  else "general_problem"

/-- The issue categorizer of `provide_generic_solution` (lines 314-325 of
src/tools.py): a different ordered keyword list, default `"general"`. -/
def generic_issue_type (details : String) : String :=
  let m := lc details
  if hasAny m ["spill", "damage", "leak", "mess"] then "spilled_food"
  else if hasAny m ["wrong", "different", "not what", "mistake"] then "wrong_order"
  else if hasAny m ["late", "delay", "slow", "waiting"] then "late_delivery"
  else if hasAny m ["cold", "lukewarm", "not hot"] then "cold_food"
  else if hasAny m ["missing", "forgot", "didn\x27t get"] then "missing_items"
  else "general"

/-! ## Order-value extraction -/

/-- Value of a digit run, most significant digit first. -/
def digitsToNat (l : List Char) : Nat := l.foldl (fun a c => a * 10 + (c.toNat - 48)) 0

/-- The whitespace class of the Python regex `\s` (ASCII part). -/
def isPySpace (c : Char) : Bool :=
  c = ' ' || c = '\t' || c = '\n' || c = '\r' || c = '\x0b' || c = '\x0c'

/-- `re.search(r'₹(\d+)', s)` of `negotiate_fair_compensation` (src/tools.py
line 1348): leftmost `₹` that is immediately followed by at least one digit;
the captured group is the maximal digit run. -/
def findRupeeAmount : List Char → Option Nat
  | [] => none
  | c :: rest =>
    if c = '₹' then
      let ds := rest.takeWhile Char.isDigit
      if ds.isEmpty then findRupeeAmount rest else some (digitsToNat ds)
    else findRupeeAmount rest

/-- One attempt of the `gather_compensation_details` regex
`₹(\d+)|rs\s*(\d+)|(\d+)\s*rupees` at a fixed position: the three alternatives
start with `₹`, with `rs`, and with a digit respectively, so at most one can
apply at a given position. -/
def gatherMatchAt (l : List Char) : Option Nat :=
  match l with
  | '₹' :: rest =>
    let ds := rest.takeWhile Char.isDigit
    if ds.isEmpty then none else some (digitsToNat ds)
  | 'r' :: 's' :: rest =>
    let ds := (rest.dropWhile isPySpace).takeWhile Char.isDigit
    if ds.isEmpty then none else some (digitsToNat ds)
  | other =>
    let ds := other.takeWhile Char.isDigit
    if ds.isEmpty then none
    else
      let rest2 := (other.drop ds.length).dropWhile isPySpace
      if "rupees".toList.isPrefixOf rest2 then some (digitsToNat ds) else none

/-- `re.search` over the whole string: leftmost position wins. -/
def gatherSearch : List Char → Option Nat
  | [] => none
  | c :: rest =>
    match gatherMatchAt (c :: rest) with
    | some v => some v
    | none => gatherSearch rest

/-! ## `gather_compensation_details` (src/tools.py lines 1287-1334) -/

/-- The currency guard of `gather_compensation_details` (line 1296): `₹` in the
raw query, or `rs` / `rupees` in the lowercased query. -/
def gather_guard (q : String) : Bool :=
  hasKw q.toList "₹" || hasKw (lc q) "rs" || hasKw (lc q) "rupees"

/-- Order value extracted by `gather_compensation_details` (lines 1294-1300):
the regex runs on the lowercased query, only when the currency guard holds. -/
def gather_extract (q : String) : Option Nat :=
  if gather_guard q then gatherSearch (lc q) else none

/-- The random draw of `gather_compensation_details` (line 1304),
`random.choice([250, 350, 450, 550, 650, 750, 850, 950])`. -/
structure GatherRng where
  default_order_value : Nat
  default_order_value_mem : default_order_value ∈ [250, 350, 450, 550, 650, 750, 850, 950]

/-- The order value used by `gather_compensation_details`: the extracted value
when the regex matched a nonzero amount (Python `if not order_value:` treats 0
as missing), otherwise the random default. -/
def gather_order_value (q : String) (rng : GatherRng) : Nat :=
  match gather_extract q with
  | some v => if v = 0 then rng.default_order_value else v
  | none => rng.default_order_value

/-! ## `negotiate_fair_compensation` (src/tools.py lines 1337-1413) -/

/-- Order value of `negotiate_fair_compensation` (lines 1344-1350): `₹(\d+)`
searched in the raw details, default 500. -/
def negotiate_order_value (details : String) : Nat :=
  if hasKw details.toList "₹" then (findRupeeAmount details.toList).getD 500 else 500

/-- Issue type of `negotiate_fair_compensation` (lines 1352-1367); the source
recomputes `order_details.lower()` in each condition. -/
def negotiate_issue_type (details : String) : String :=
  if hasAny (lc details) ["wrong", "incorrect", "different"] then "wrong_order"
  else if hasAny (lc details) ["spilled", "damaged", "cold", "soggy"] then "quality_issue"
  else if hasAny (lc details) ["late", "delay", "waiting"] then "delivery_delay"
  else if hasAny (lc details) ["missing", "incomplete"] then "missing_items"
  else "general"

/-- Base percentage of `negotiate_fair_compensation` (lines 1352-1367). -/
def negotiate_base_percentage (details : String) : Nat :=
  if hasAny (lc details) ["wrong", "incorrect", "different"] then 30
  else if hasAny (lc details) ["spilled", "damaged", "cold", "soggy"] then 40
  else if hasAny (lc details) ["late", "delay", "waiting"] then 15
  else if hasAny (lc details) ["missing", "incomplete"] then 35
  else 25

/-- The random draws of `negotiate_fair_compensation` (lines 1371-1379). -/
structure NegotiationRng where
  delivery_cost : Nat
  goodwill_voucher : Nat
  customer_satisfaction_score : Nat
  delivery_cost_mem : delivery_cost ∈ [45, 50, 55, 60]
  goodwill_voucher_mem : goodwill_voucher ∈ [30, 40, 50]
  customer_satisfaction_mem : customer_satisfaction_score ∈ [75, 80, 85, 90]

/-- The structured content of the negotiation report returned by
`negotiate_fair_compensation`. -/
structure NegotiationOffer where
  order_value : Nat
  issue_type : String
  base_percentage : Nat
  base_compensation : Nat
  tier_1_offer : Nat
  tier_2_offer : Nat
  tier_3_offer : Nat
  goodwill_voucher : Nat
  delivery_cost : Nat
  deriving Repr

/-- `negotiate_fair_compensation` (lines 1369-1379): `base_compensation =
int(order_value * base_percentage / 100)`, `tier_1 = base`, `tier_2 =
min(base + 30, int(order_value * 0.4))`, `tier_3 = min(int(order_value * 0.5),
base + 60)`. -/
def negotiate_fair_compensation (details : String) (rng : NegotiationRng) :
    NegotiationOffer :=
  let ov := negotiate_order_value details
  let bp := negotiate_base_percentage details
  let base := ov * bp / 100
  { order_value := ov
    issue_type := negotiate_issue_type details
    base_percentage := bp
    base_compensation := base
    tier_1_offer := base
    tier_2_offer := min (base + 30) (ov * 40 / 100)
    tier_3_offer := min (ov * 50 / 100) (base + 60)
    goodwill_voucher := rng.goodwill_voucher
    delivery_cost := rng.delivery_cost }

/-! ## `calculate_dynamic_refund_amount` (src/tools.py lines 1476-1542) -/

/-- The compensation matrix of `calculate_dynamic_refund_amount` (lines
1484-1495): `(min, max)` percentage per issue type, default `(40, 60)`. -/
def cdra_matrix (issue_type : String) : Nat × Nat :=
  if issue_type = "wrong_order" then (25, 40)
  else if issue_type = "quality_issue" then (30, 50)
  else if issue_type = "delivery_delay" then (10, 25)
  else if issue_type = "missing_items" then (35, 50)
  else if issue_type = "spilled_food" then (35, 50)
  else if issue_type = "cold_food" then (20, 35)
  else if issue_type = "damaged_packaging" then (15, 30)
  else (40, 60)

/-- Percentage chosen by `calculate_dynamic_refund_amount` (lines 1497-1506)
from the matrix row and the customer-expectation text. -/
def cdra_percentage (issue_type customer_expectation : String) : Nat :=
  if hasKw (lc customer_expectation) "full refund" || hasKw (lc customer_expectation) "complete" then
    min (cdra_matrix issue_type).2 50
  else if hasKw (lc customer_expectation) "partial" || hasKw (lc customer_expectation) "some" then
    (cdra_matrix issue_type).1
  else ((cdra_matrix issue_type).1 + min (cdra_matrix issue_type).2 50) / 2

/-- The tier label chosen alongside the percentage (lines 1497-1506). -/
def cdra_tier (issue_type customer_expectation : String) : String :=
  if hasKw (lc customer_expectation) "full refund" || hasKw (lc customer_expectation) "complete" then
    "maximum (50% cap)"
  else if hasKw (lc customer_expectation) "partial" || hasKw (lc customer_expectation) "some" then
    "minimal"
  else "standard"

/-- The random draws of `calculate_dynamic_refund_amount` (lines 1510-1514). -/
structure RefundRng where
  goodwill_credit : Nat
  delivery_cost : Nat
  platform_cost : Nat
  goodwill_credit_mem : goodwill_credit ∈ [50, 75, 100]
  delivery_cost_mem : delivery_cost ∈ [45, 50, 55]
  platform_cost_mem : platform_cost ∈ [25, 30, 35]

/-- The structured content of the refund report. -/
structure RefundCalc where
  percentage : Nat
  tier : String
  refund_amount : Nat
  goodwill_credit : Nat
  total_customer_value : Nat
  deriving Repr

/-- `calculate_dynamic_refund_amount` (lines 1508-1512): `refund_amount =
int(order_value * percentage / 100)`, plus a random goodwill credit on top. -/
def calculate_dynamic_refund_amount (order_value : Nat)
    (issue_type customer_expectation : String) (rng : RefundRng) : RefundCalc :=
  let p := cdra_percentage issue_type customer_expectation
  let refund := order_value * p / 100
  { percentage := p
    tier := cdra_tier issue_type customer_expectation
    refund_amount := refund
    goodwill_credit := rng.goodwill_credit
    total_customer_value := refund + rng.goodwill_credit }

/-! ## `calculate_dynamic_compensation` (src/tools.py lines 63-94) -/

/-- The compensation matrix of `calculate_dynamic_compensation` (lines 67-75):
`(base numerator over 10, bonus, type)`; the float bases 1.0, 0.6, 0.4, 0.3,
0.7, 0.5 are modelled as exact tenths; default row `(0.5, 15, "standard")`. -/
def cdc_matrix (issue_type : String) : Nat × Nat × String :=
  if issue_type = "spilled" then (10, 50, "full_refund_plus")
  else if issue_type = "damaged" then (10, 30, "full_refund_plus")
  else if issue_type = "wrong_order" then (10, 20, "full_refund")
  else if issue_type = "missing_items" then (6, 15, "partial_refund")
  else if issue_type = "cold_food" then (4, 25, "partial_refund")
  else if issue_type = "late_delivery" then (3, 10, "delivery_refund")
  else if issue_type = "poor_quality" then (7, 20, "partial_refund")
  else (5, 15, "standard")

/-- The random draw of `calculate_dynamic_compensation` (lines 78-79),
`random.choice([180, 250, 320, 450, 580, 720, 890, 1200])`. -/
structure CompRng where
  estimated_order : Nat
  estimated_order_mem : estimated_order ∈ [180, 250, 320, 450, 580, 720, 890, 1200]

/-- The dict returned by `calculate_dynamic_compensation`. -/
structure CompResult where
  order_value : Nat
  refund_amount : Nat
  bonus_voucher : Nat
  total_compensation : Nat
  compensation_type : String
  deriving Repr

/-- `calculate_dynamic_compensation` (lines 63-94): `refund_amount =
int(order_value * base)`; `order_value or random.choice(...)` treats `None`
and 0 as missing. -/
def calculate_dynamic_compensation (issue_type : String) (order_value : Option Nat)
    (rng : CompRng) : CompResult :=
  let ov := match order_value with
    | some v => if v = 0 then rng.estimated_order else v
    | none => rng.estimated_order
  let c := cdc_matrix issue_type
  let refund := ov * c.1 / 10
  { order_value := ov
    refund_amount := refund
    bonus_voucher := c.2.1
    total_compensation := refund + c.2.1
    compensation_type := c.2.2 }

/-! ## `offer_goodwill_voucher` (src/tools.py lines 1649-1703) -/

/-- The random draw of `offer_goodwill_voucher` (line 1656),
`random.choice([200, 300, 400, 500, 600, 700, 800])`. -/
structure VoucherRng where
  order_value : Nat
  order_value_mem : order_value ∈ [200, 300, 400, 500, 600, 700, 800]

/-- Voucher and escalation percentages of `offer_goodwill_voucher`
(lines 1659-1667): the lowercased satisfaction level is tested for list
membership (exact equality). -/
def voucher_percentages (customer_satisfaction_level : String) : Nat × Nat :=
  if lc customer_satisfaction_level ∈
      ["extremely dissatisfied".toList, "very upset".toList, "angry".toList] then (70, 90)
  else if lc customer_satisfaction_level ∈ ["dissatisfied".toList, "unhappy".toList] then (50, 70)
  else (30, 50)

/-- The structured content of the goodwill-voucher offer. -/
structure VoucherOffer where
  order_value : Nat
  voucher_percentage : Nat
  escalation_percentage : Nat
  initial_voucher : Nat
  max_voucher : Nat
  deriving Repr

/-- `offer_goodwill_voucher` (lines 1656-1670): `initial_voucher =
int(order_value * voucher_percentage / 100)` and similarly for the maximum. -/
def offer_goodwill_voucher (issue_type customer_satisfaction_level : String)
    (rng : VoucherRng) : VoucherOffer :=
  let ov := rng.order_value
  let p := voucher_percentages customer_satisfaction_level
  { order_value := ov
    voucher_percentage := p.1
    escalation_percentage := p.2
    initial_voucher := ov * p.1 / 100
    max_voucher := ov * p.2 / 100 }

/-! ## `orchestrate_resolution_plan` severity scoring (src/tools.py lines 1170-1254) -/

/-- Base severity of `orchestrate_resolution_plan` (lines 1181-1199). -/
def orchestrate_base_severity (m : List Char) : Nat :=
  if hasAny m ["spilled", "poisoned", "allergic", "sick", "emergency"] then 100
  else if hasAny m ["wrong order", "missing", "damaged", "terrible", "awful", "disgusted"] then 75
  else if hasAny m ["cold", "late", "delayed", "poor quality", "disappointed"] then 50
  else 25

/-- The high-anger keyword list (line 1202). -/
def anger_words : List String := ["angry", "furious", "outraged", "disgusted"]

/-- The frustration keyword list (line 1205). -/
def frustration_words : List String := ["frustrated", "annoyed", "disappointed"]

/-- The repeat-complaint keyword list (line 1210). -/
def repeat_words : List String := ["again", "always", "every time", "repeatedly"]

/-- Severity score of `orchestrate_resolution_plan` (lines 1177-1212), mirroring
the sequential accumulation: base, then `+= 15` / `+= 10` from the
anger-or-else-frustration `if/elif`, then `+= 20` for repeat language. -/
def orchestrate_severity (issue_details : String) : Nat :=
  let m := lc issue_details
  let s0 := orchestrate_base_severity m
  let s1 := if hasAny m anger_words then s0 + 15
            else if hasAny m frustration_words then s0 + 10
            else s0
  if hasAny m repeat_words then s1 + 20 else s1

/-! ## Negotiation / escalation state machine -/

/-- Modelled from the spec: the repository contains no executable negotiation
state machine — the mandatory escalation after a rejected Tier-3 offer is
enforced only by prompt text (src/agent_core.py lines 256-385) and by the tool
description of `escalate_compensation_dissatisfaction` (src/agent_core.py lines
235-239); `escalate_compensation_dissatisfaction` itself (src/tools.py lines
1765-1822) only formats the handoff text.  States and transitions follow the
spec, section 4.4. -/
inductive NegotiationState
  | NOT_STARTED
  | DETAILS_GATHERED
  | OFFER_MADE
  | ACCEPTED
  | ESCALATED
  deriving DecidableEq, Repr

/-- Modelled from the spec: per-conversation negotiation status — the lifecycle
state together with the index of the tier currently on the table (0 before any
offer). -/
structure NegoSt where
  state : NegotiationState
  tier : Nat
  deriving DecidableEq, Repr

/-- Modelled from the spec: the customer / scorer events that drive the
negotiation lifecycle of section 4.4. -/
inductive NegoEvent
  | requestCompensation
  | presentOffer
  | rejectOffer
  | acceptOffer
  deriving DecidableEq, Repr

/-- Modelled from the spec: the initial per-conversation negotiation status. -/
def negoInit : NegoSt := ⟨.NOT_STARTED, 0⟩

/-- Modelled from the spec, section 4.4: the transition function.  A rejection
while a tier below 3 is on the table re-enters OFFER_MADE with the next tier; a
rejection of the Tier-3 (50%-cap) offer transitions to ESCALATED.  ACCEPTED and
ESCALATED are terminal; all unspecified state/event pairs leave the status
unchanged. -/
def negoStep : NegoSt → NegoEvent → NegoSt
  | ⟨.NOT_STARTED, _⟩, .requestCompensation => ⟨.DETAILS_GATHERED, 0⟩
  | ⟨.DETAILS_GATHERED, _⟩, .presentOffer => ⟨.OFFER_MADE, 1⟩
  | ⟨.OFFER_MADE, t⟩, .rejectOffer =>
    if t < 3 then ⟨.OFFER_MADE, t + 1⟩ else ⟨.ESCALATED, t⟩
  | ⟨.OFFER_MADE, t⟩, .acceptOffer => ⟨.ACCEPTED, t⟩
  | s, _ => s

/-- Modelled from the spec: running a whole event sequence from the initial
status. -/
def negoRun (evs : List NegoEvent) : NegoSt := evs.foldl negoStep negoInit

/-! ## The claim's stated extraction rule (for comparison with the source rule) -/

/-- The maximal leading digit run after optional whitespace, as a value;
`none` when there is no digit. -/
def digitsAfterSpaces (l : List Char) : Option Nat :=
  let ds := (l.dropWhile isPySpace).takeWhile Char.isDigit
  if ds.isEmpty then none else some (digitsToNat ds)

/-- The extraction rule as claim C8 words it (not as the source implements it):
a currency symbol or the words `rs` / `rupees` followed by digits, first match
wins. -/
def claimed_extraction_rule : List Char → Option Nat
  | [] => none
  | c :: rest =>
    let here :=
      if c = '₹' then digitsAfterSpaces rest
      else if "rupees".toList.isPrefixOf (c :: rest) then
        digitsAfterSpaces ((c :: rest).drop 6)
      else if "rs".toList.isPrefixOf (c :: rest) then
        digitsAfterSpaces ((c :: rest).drop 2)
      else none
    match here with
    | some v => some v
    | none => claimed_extraction_rule rest

/-- Rounding of `num / den` to the nearest integer with ties to even — the
`round` of the specification sentence (Python `round`). -/
def roundHalfEven (num den : Nat) : Nat :=
  let q := num / den
  let r := num % den
  if 2 * r < den then q
  else if den < 2 * r then q + 1
  else if q % 2 = 0 then q else q + 1

/-! ## Concrete random draws used in witnesses and counterexamples -/

/-- A concrete draw for `gather_compensation_details`. -/
def gatherRng250 : GatherRng := ⟨250, by decide⟩

/-- A second concrete draw for `gather_compensation_details`. -/
def gatherRng350 : GatherRng := ⟨350, by decide⟩

/-- A concrete draw for `negotiate_fair_compensation`. -/
def negRng0 : NegotiationRng := ⟨45, 30, 75, by decide, by decide, by decide⟩

/-- A concrete draw for `calculate_dynamic_refund_amount` with goodwill credit 50. -/
def refundRng50 : RefundRng := ⟨50, 45, 25, by decide, by decide, by decide⟩

/-- A concrete draw for `calculate_dynamic_refund_amount` with goodwill credit 75. -/
def refundRng75 : RefundRng := ⟨75, 45, 25, by decide, by decide, by decide⟩

/-- A concrete draw for `calculate_dynamic_compensation`. -/
def compRng180 : CompRng := ⟨180, by decide⟩

/-- A concrete draw for `offer_goodwill_voucher` with order value 400. -/
def voucherRng400 : VoucherRng := ⟨400, by decide⟩

/-! ## Helper lemmas -/

theorem nfc_order_value (d : String) (rng : NegotiationRng) :
    (negotiate_fair_compensation d rng).order_value = negotiate_order_value d := rfl

theorem nfc_tier1 (d : String) (rng : NegotiationRng) :
    (negotiate_fair_compensation d rng).tier_1_offer =
      negotiate_order_value d * negotiate_base_percentage d / 100 := rfl

theorem nfc_tier2 (d : String) (rng : NegotiationRng) :
    (negotiate_fair_compensation d rng).tier_2_offer =
      min (negotiate_order_value d * negotiate_base_percentage d / 100 + 30)
        (negotiate_order_value d * 40 / 100) := rfl

theorem nfc_tier3 (d : String) (rng : NegotiationRng) :
    (negotiate_fair_compensation d rng).tier_3_offer =
      min (negotiate_order_value d * 50 / 100)
        (negotiate_order_value d * negotiate_base_percentage d / 100 + 60) := rfl

theorem cdra_refund_eq (ov : Nat) (it exp : String) (rng : RefundRng) :
    (calculate_dynamic_refund_amount ov it exp rng).refund_amount =
      ov * cdra_percentage it exp / 100 := rfl

theorem negotiate_base_percentage_le (details : String) :
    negotiate_base_percentage details ≤ 40 := by
  unfold negotiate_base_percentage
  split_ifs <;> omega

theorem cdra_percentage_le (it exp : String) : cdra_percentage it exp ≤ 50 := by
  unfold cdra_percentage cdra_matrix
  split_ifs <;> simp

theorem hundred_mul_div_le (ov p : Nat) : 100 * (ov * p / 100) ≤ p * ov := by
  calc 100 * (ov * p / 100) = ov * p / 100 * 100 := Nat.mul_comm _ _
    _ ≤ ov * p := Nat.div_mul_le_self _ _
    _ = p * ov := Nat.mul_comm _ _

/-! ## C4: intent classifier precedence -/

/-- C4: `analyze_customer_situation` labels a message TRACKING iff the
lowercased message contains a tracking keyword and no problem keyword, PROBLEM
iff it contains a problem keyword, GENERAL otherwise; a message containing
both a tracking word and a problem word is always PROBLEM. -/
theorem intent_classifier_spec (msg : String) :
    (classifyIntent msg = Intent.tracking ↔
      (hasAny (lc msg) tracking_keywords = true ∧ hasAny (lc msg) problem_keywords = false)) ∧
    (classifyIntent msg = Intent.problem ↔ hasAny (lc msg) problem_keywords = true) ∧
    (classifyIntent msg = Intent.general ↔
      (hasAny (lc msg) tracking_keywords = false ∧ hasAny (lc msg) problem_keywords = false)) ∧
    (hasAny (lc msg) tracking_keywords = true → hasAny (lc msg) problem_keywords = true →
      classifyIntent msg = Intent.problem) := by
  cases ht : hasAny (lc msg) tracking_keywords <;>
    cases hp : hasAny (lc msg) problem_keywords <;>
      simp [classifyIntent, is_tracking_request, is_actual_problem, ht, hp]

/-- Witness for C4 on the spec's own example message. -/
theorem intent_classifier_spec_witness :
    classifyIntent "Where is my order, it arrived spilled" = Intent.problem :=
  (intent_classifier_spec "Where is my order, it arrived spilled").2.2.2 (by decide) (by decide)

/-! ## C10: totality and dead code of `analyze_customer_situation` -/

/-- C10: the `if / elif / else` chain of `analyze_customer_situation` returns
on every input (so the trailing severity-classification block is unreachable),
the result is always one of the three intent branches, and the tracking and
problem guards are mutually exclusive. -/
theorem analyze_total_branches (msg : String) :
    (analyzeStep msg).isSome = true ∧
    (analyze_customer_situation msg = Branch.tracking ∨
      analyze_customer_situation msg = Branch.problem ∨
      analyze_customer_situation msg = Branch.general) ∧
    (is_tracking_request (lc msg) && is_actual_problem (lc msg)) = false := by
  cases ht : hasAny (lc msg) tracking_keywords <;>
    cases hp : hasAny (lc msg) problem_keywords <;>
      simp [analyze_customer_situation, analyzeStep, is_tracking_request,
        is_actual_problem, ht, hp]

/-! ## C5: issue categorizer priority -/

/-- C5 counterexample: the two categorizer functions disagree — the message
`"packaging"` (PROBLEM intent, since `packaging` is a problem keyword) is
`packaging_issue` for `analyze_customer_situation` but `general` for
`provide_generic_solution`, so the category is not independent of which
classifier function is invoked. -/
theorem categorizer_inconsistency :
    is_actual_problem (lc "packaging") = true ∧
    analyze_issue_type "packaging" = "packaging_issue" ∧
    generic_issue_type "packaging" = "general" ∧
    (analyze_issue_type "packaging" == generic_issue_type "packaging") = false := by
  decide

/-- C5 amended: `analyze_customer_situation`'s categorizer evaluates its
keyword sets in the fixed order spilled_food, wrong_order, packaging_issue,
cold_food, missing_items, quality_issue with the first match winning and
default `general_problem`; `provide_generic_solution` uses a different list. -/
theorem analyze_categorizer_priority (msg : String) :
    (hasAny (lc msg) ["spill", "damage", "leak", "mess"] = true →
      analyze_issue_type msg = "spilled_food") ∧
    (hasAny (lc msg) ["spill", "damage", "leak", "mess"] = false →
      hasAny (lc msg) ["wrong", "different", "mistake"] = true →
      analyze_issue_type msg = "wrong_order") ∧
    (hasAny (lc msg) ["spill", "damage", "leak", "mess"] = false →
      hasAny (lc msg) ["wrong", "different", "mistake"] = false →
      hasAny (lc msg) ["packaging", "broken", "damaged"] = true →
      analyze_issue_type msg = "packaging_issue") ∧
    (hasAny (lc msg) ["spill", "damage", "leak", "mess"] = false →
      hasAny (lc msg) ["wrong", "different", "mistake"] = false →
      hasAny (lc msg) ["packaging", "broken", "damaged"] = false →
      hasAny (lc msg) ["cold", "lukewarm"] = true →
      analyze_issue_type msg = "cold_food") ∧
    (hasAny (lc msg) ["spill", "damage", "leak", "mess"] = false →
      hasAny (lc msg) ["wrong", "different", "mistake"] = false →
      hasAny (lc msg) ["packaging", "broken", "damaged"] = false →
      hasAny (lc msg) ["cold", "lukewarm"] = false →
      hasAny (lc msg) ["missing", "forgot"] = true →
      analyze_issue_type msg = "missing_items") ∧
    (hasAny (lc msg) ["spill", "damage", "leak", "mess"] = false →
      hasAny (lc msg) ["wrong", "different", "mistake"] = false →
      hasAny (lc msg) ["packaging", "broken", "damaged"] = false →
      hasAny (lc msg) ["cold", "lukewarm"] = false →
      hasAny (lc msg) ["missing", "forgot"] = false →
      hasAny (lc msg) ["quality", "bad", "terrible"] = true →
      analyze_issue_type msg = "quality_issue") ∧
    (hasAny (lc msg) ["spill", "damage", "leak", "mess"] = false →
      hasAny (lc msg) ["wrong", "different", "mistake"] = false →
      hasAny (lc msg) ["packaging", "broken", "damaged"] = false →
      hasAny (lc msg) ["cold", "lukewarm"] = false →
      hasAny (lc msg) ["missing", "forgot"] = false →
      hasAny (lc msg) ["quality", "bad", "terrible"] = false →
      analyze_issue_type msg = "general_problem") := by
  refine ⟨?_, ?_, ?_, ?_, ?_, ?_, ?_⟩ <;>
    · intros
      simp [analyze_issue_type, *]

/-- Witness for C5 amended: a message with both a spilled keyword and a
wrong-order keyword resolves to the higher-priority spilled_food. -/
theorem analyze_categorizer_priority_witness :
    analyze_issue_type "My food spilled and the order is wrong" = "spilled_food" :=
  (analyze_categorizer_priority "My food spilled and the order is wrong").1 (by decide)

/-! ## C1: the 50% ceiling -/

/-- C1 counterexample: two of the policy functions named by the claim exceed
50% of the order value — `calculate_dynamic_compensation` refunds 100% of a
`"spilled"` order (base 1.0 plus a bonus voucher), and `offer_goodwill_voucher`
for an `"angry"` customer issues a voucher worth 70% of the order value. -/
theorem ceiling_counterexample :
    (calculate_dynamic_compensation "spilled" (some 400) compRng180).refund_amount = 400 ∧
    50 * (calculate_dynamic_compensation "spilled" (some 400) compRng180).order_value <
      100 * (calculate_dynamic_compensation "spilled" (some 400) compRng180).refund_amount ∧
    (offer_goodwill_voucher "spilled_food" "angry" voucherRng400).initial_voucher = 280 ∧
    50 * (offer_goodwill_voucher "spilled_food" "angry" voucherRng400).order_value <
      100 * (offer_goodwill_voucher "spilled_food" "angry" voucherRng400).initial_voucher := by
  decide

/-- C1 amended: the 50%-of-order-value ceiling does hold for the three tier
offers of `negotiate_fair_compensation` and for the refund of
`calculate_dynamic_refund_amount`, for every issue category, order value and
customer-pressure text. -/
theorem ceiling_negotiation_refund :
    ∀ (details : String) (rng : NegotiationRng) (ov : Nat) (it exp : String) (rng2 : RefundRng),
      100 * (negotiate_fair_compensation details rng).tier_1_offer ≤
        50 * (negotiate_fair_compensation details rng).order_value ∧
      100 * (negotiate_fair_compensation details rng).tier_2_offer ≤
        50 * (negotiate_fair_compensation details rng).order_value ∧
      100 * (negotiate_fair_compensation details rng).tier_3_offer ≤
        50 * (negotiate_fair_compensation details rng).order_value ∧
      cdra_percentage it exp ≤ 50 ∧
      100 * (calculate_dynamic_refund_amount ov it exp rng2).refund_amount ≤ 50 * ov := by
  intro details rng ov it exp rng2
  rw [nfc_tier1, nfc_tier2, nfc_tier3, nfc_order_value, cdra_refund_eq]
  have hbp : negotiate_base_percentage details ≤ 50 :=
    Nat.le_trans (negotiate_base_percentage_le details) (by omega)
  refine ⟨?_, ?_, ?_, cdra_percentage_le it exp, ?_⟩
  · exact Nat.le_trans (hundred_mul_div_le _ _)
      (Nat.mul_le_mul_right _ hbp)
  · have h2 : min (negotiate_order_value details * negotiate_base_percentage details / 100 + 30)
        (negotiate_order_value details * 40 / 100) ≤
        negotiate_order_value details * 40 / 100 := Nat.min_le_right _ _
    calc 100 * min (negotiate_order_value details * negotiate_base_percentage details / 100 + 30)
          (negotiate_order_value details * 40 / 100)
        ≤ 100 * (negotiate_order_value details * 40 / 100) := Nat.mul_le_mul_left _ h2
      _ ≤ 40 * negotiate_order_value details := hundred_mul_div_le _ _
      _ ≤ 50 * negotiate_order_value details := Nat.mul_le_mul_right _ (by omega)
  · have h3 : min (negotiate_order_value details * 50 / 100)
        (negotiate_order_value details * negotiate_base_percentage details / 100 + 60) ≤
        negotiate_order_value details * 50 / 100 := Nat.min_le_left _ _
    calc 100 * min (negotiate_order_value details * 50 / 100)
          (negotiate_order_value details * negotiate_base_percentage details / 100 + 60)
        ≤ 100 * (negotiate_order_value details * 50 / 100) := Nat.mul_le_mul_left _ h3
      _ ≤ 50 * negotiate_order_value details := hundred_mul_div_le _ _
  · exact Nat.le_trans (hundred_mul_div_le _ _)
      (Nat.mul_le_mul_right _ (cdra_percentage_le it exp))

/-! ## C2: tier structure within one negotiation -/

/-- C2 counterexample: on order details `"late ₹1000"` (delivery delay, base
15%) the Tier-3 offer is `min(500, 150 + 60) = 210`, i.e. 21% of the 1000
order value — not exactly 50%. -/
theorem tier3_counterexample :
    (negotiate_fair_compensation "late ₹1000" negRng0).order_value = 1000 ∧
    (negotiate_fair_compensation "late ₹1000" negRng0).tier_3_offer = 210 ∧
    100 * (negotiate_fair_compensation "late ₹1000" negRng0).tier_3_offer <
      50 * (negotiate_fair_compensation "late ₹1000" negRng0).order_value := by
  decide

/-- C2 amended: Tier-1 ≤ Tier-2 ≤ Tier-3 and Tier-2 is at most 40% of the
order value; Tier-3 equals `min(50% of order value, Tier-1 + 60)`, and it
equals the 50% amount exactly when Tier-1 + 60 reaches it. -/
theorem tier_monotonicity (details : String) (rng : NegotiationRng) :
    (negotiate_fair_compensation details rng).tier_1_offer ≤
      (negotiate_fair_compensation details rng).tier_2_offer ∧
    (negotiate_fair_compensation details rng).tier_2_offer ≤
      (negotiate_fair_compensation details rng).tier_3_offer ∧
    100 * (negotiate_fair_compensation details rng).tier_2_offer ≤
      40 * (negotiate_fair_compensation details rng).order_value ∧
    (negotiate_fair_compensation details rng).tier_3_offer =
      min ((negotiate_fair_compensation details rng).order_value * 50 / 100)
        ((negotiate_fair_compensation details rng).tier_1_offer + 60) ∧
    ((negotiate_fair_compensation details rng).order_value * 50 / 100 ≤
        (negotiate_fair_compensation details rng).tier_1_offer + 60 →
      (negotiate_fair_compensation details rng).tier_3_offer =
        (negotiate_fair_compensation details rng).order_value * 50 / 100) := by
  rw [nfc_tier1, nfc_tier2, nfc_tier3, nfc_order_value]
  have hbp := negotiate_base_percentage_le details
  have hdiv40 : negotiate_order_value details * negotiate_base_percentage details / 100 ≤
      negotiate_order_value details * 40 / 100 :=
    Nat.div_le_div_right (Nat.mul_le_mul_left _ hbp)
  have hdiv50 : negotiate_order_value details * 40 / 100 ≤
      negotiate_order_value details * 50 / 100 :=
    Nat.div_le_div_right (Nat.mul_le_mul_left _ (by omega))
  refine ⟨?_, ?_, ?_, rfl, ?_⟩
  · exact Nat.le_min.mpr ⟨Nat.le_add_right _ _, hdiv40⟩
  · refine Nat.le_min.mpr ⟨?_, ?_⟩
    · exact Nat.le_trans (Nat.min_le_right _ _) hdiv50
    · exact Nat.le_trans (Nat.min_le_left _ _) (Nat.add_le_add_left (by omega) _)
  · calc 100 * min (negotiate_order_value details * negotiate_base_percentage details / 100 + 30)
          (negotiate_order_value details * 40 / 100)
        ≤ 100 * (negotiate_order_value details * 40 / 100) :=
          Nat.mul_le_mul_left _ (Nat.min_le_right _ _)
      _ ≤ 40 * negotiate_order_value details := hundred_mul_div_le _ _
  · intro h
    exact Nat.min_eq_left h

/-- Witness for C2 amended: on a ₹100 order with default base 25%, Tier-1 + 60
reaches the 50% amount and Tier-3 is exactly 50% of the order value. -/
theorem tier_monotonicity_witness :
    (negotiate_fair_compensation "₹100" negRng0).tier_3_offer =
      (negotiate_fair_compensation "₹100" negRng0).order_value * 50 / 100 :=
  (tier_monotonicity "₹100" negRng0).2.2.2.2 (by decide)

/-! ## C6: determinism of the scorer -/

/-- C6 counterexample: two calls of `calculate_dynamic_refund_amount` with
identical customer inputs but different internal `random.choice` draws return
different goodwill credits, so the policy stage does contain hidden
randomness. -/
theorem scorer_randomness :
    (calculate_dynamic_refund_amount 400 "wrong_order" "reasonable" refundRng50).goodwill_credit = 50 ∧
    (calculate_dynamic_refund_amount 400 "wrong_order" "reasonable" refundRng75).goodwill_credit = 75 ∧
    ((calculate_dynamic_refund_amount 400 "wrong_order" "reasonable" refundRng50).goodwill_credit ==
      (calculate_dynamic_refund_amount 400 "wrong_order" "reasonable" refundRng75).goodwill_credit) =
      false := by
  decide

/-- C6 amended: the compensation percentage, refund amount, order value and
tier offers are independent of the internal random draws; the extracted order
value of `gather_compensation_details` is also draw-independent whenever the
message carries an extractable nonzero amount.  Only the goodwill credits,
delivery costs and fallback order values vary between draws. -/
theorem scorer_determinism :
    ∀ (ov : Nat) (it exp : String) (r1 r2 : RefundRng) (d : String)
      (n1 n2 : NegotiationRng) (q : String) (g1 g2 : GatherRng) (v : Nat),
      (calculate_dynamic_refund_amount ov it exp r1).percentage =
        (calculate_dynamic_refund_amount ov it exp r2).percentage ∧
      (calculate_dynamic_refund_amount ov it exp r1).refund_amount =
        (calculate_dynamic_refund_amount ov it exp r2).refund_amount ∧
      (negotiate_fair_compensation d n1).order_value =
        (negotiate_fair_compensation d n2).order_value ∧
      (negotiate_fair_compensation d n1).tier_1_offer =
        (negotiate_fair_compensation d n2).tier_1_offer ∧
      (negotiate_fair_compensation d n1).tier_2_offer =
        (negotiate_fair_compensation d n2).tier_2_offer ∧
      (negotiate_fair_compensation d n1).tier_3_offer =
        (negotiate_fair_compensation d n2).tier_3_offer ∧
      (gather_extract q = some v → 0 < v →
        gather_order_value q g1 = gather_order_value q g2) := by
  intro ov it exp r1 r2 d n1 n2 q g1 g2 v
  refine ⟨rfl, rfl, rfl, rfl, rfl, rfl, ?_⟩
  intro h hv
  have hne : ¬(v = 0) := Nat.pos_iff_ne_zero.mp hv
  have e1 : gather_order_value q g1 = v := by
    unfold gather_order_value
    rw [h]
    exact if_neg hne
  have e2 : gather_order_value q g2 = v := by
    unfold gather_order_value
    rw [h]
    exact if_neg hne
  rw [e1, e2]

/-- Witness for C6 amended: a query carrying `₹400` gives order value 400
under either random draw. -/
theorem scorer_determinism_witness :
    gather_order_value "my ₹400 order" gatherRng250 =
      gather_order_value "my ₹400 order" gatherRng350 :=
  (scorer_determinism 0 "" "" refundRng50 refundRng50 "" negRng0 negRng0
    "my ₹400 order" gatherRng250 gatherRng350 400).2.2.2.2.2.2 (by decide) (by decide)

/-! ## C7: the amount formula and the goodwill credit -/

/-- C7 counterexample: the source truncates (`int(...)`), it does not round —
on a ₹350 wrong order with a partial expectation the percentage is 25, the
code pays `int(87.5) = 87`, while `round(350 * 25 / 100) = 88`. -/
theorem rounding_counterexample :
    (calculate_dynamic_refund_amount 350 "wrong_order" "partial refund please"
      refundRng50).percentage = 25 ∧
    (calculate_dynamic_refund_amount 350 "wrong_order" "partial refund please"
      refundRng50).refund_amount = 87 ∧
    roundHalfEven (350 * 25) 100 = 88 ∧
    ((calculate_dynamic_refund_amount 350 "wrong_order" "partial refund please"
        refundRng50).refund_amount ==
      roundHalfEven
        (350 * (calculate_dynamic_refund_amount 350 "wrong_order" "partial refund please"
          refundRng50).percentage) 100) = false := by
  decide

/-- C7 amended: the compensation amount is the truncation
`int(orderValue * percentage / 100)`; the goodwill credit added on top is not
fixed but drawn from a small fixed set (`{50, 75, 100}` in the refund
calculator, `{30, 40, 50}` in the negotiation), and it is not counted against
the 50% cap: on a ₹100 wrong order the refund plus credit exceeds 50% of the
order value for every draw. -/
theorem amount_formula :
    ∀ (ov : Nat) (it exp : String) (rng : RefundRng) (d : String) (n : NegotiationRng),
      (calculate_dynamic_refund_amount ov it exp rng).refund_amount =
        ov * cdra_percentage it exp / 100 ∧
      (calculate_dynamic_refund_amount ov it exp rng).total_customer_value =
        (calculate_dynamic_refund_amount ov it exp rng).refund_amount +
          (calculate_dynamic_refund_amount ov it exp rng).goodwill_credit ∧
      (calculate_dynamic_refund_amount ov it exp rng).goodwill_credit ∈ [50, 75, 100] ∧
      (negotiate_fair_compensation d n).tier_1_offer =
        (negotiate_fair_compensation d n).order_value * negotiate_base_percentage d / 100 ∧
      (negotiate_fair_compensation d n).goodwill_voucher ∈ [30, 40, 50] ∧
      50 * 100 <
        100 * ((calculate_dynamic_refund_amount 100 "wrong_order" "partial" rng).refund_amount +
          (calculate_dynamic_refund_amount 100 "wrong_order" "partial" rng).goodwill_credit) := by
  intro ov it exp rng d n
  refine ⟨rfl, rfl, rng.goodwill_credit_mem, rfl, n.goodwill_voucher_mem, ?_⟩
  have h1 : (calculate_dynamic_refund_amount 100 "wrong_order" "partial" rng).refund_amount =
      25 := rfl
  have h2 : (calculate_dynamic_refund_amount 100 "wrong_order" "partial" rng).goodwill_credit =
      rng.goodwill_credit := rfl
  rw [h1, h2]
  have hm := rng.goodwill_credit_mem
  simp only [List.mem_cons, List.not_mem_nil, or_false] at hm
  rcases hm with h | h | h <;> rw [h] <;> omega

/-! ## C8: order-value extraction and fallback -/

/-- C8 counterexample: the claim's rule ("rs"/"rupees" followed by digits)
would extract 400 from `"i paid rupees 400"`, but the source regex demands the
digits BEFORE the word `rupees`, finds nothing there, and falls back to the
random default. -/
theorem extraction_counterexample :
    gather_extract "i paid rupees 400" = none ∧
    claimed_extraction_rule (lc "i paid rupees 400") = some 400 ∧
    gather_order_value "i paid rupees 400" gatherRng250 = 250 ∧
    gather_extract "i paid 400 rupees" = some 400 := by
  decide

/-- C8 amended: extraction looks for `₹` followed by digits, `rs` followed by
optional whitespace and digits, or digits followed by optional whitespace and
`rupees`, leftmost first; on every message without an extractable nonzero
amount the order value falls back to a default from a fixed list, and the
function is total (never raises). -/
theorem order_value_fallback (q : String) (rng : GatherRng) :
    (∃ v, gather_extract q = some v ∧ 0 < v ∧ gather_order_value q rng = v) ∨
    gather_order_value q rng ∈ [250, 350, 450, 550, 650, 750, 850, 950] := by
  cases h : gather_extract q with
  | none =>
    right
    have e : gather_order_value q rng = rng.default_order_value := by
      unfold gather_order_value
      rw [h]
    rw [e]
    exact rng.default_order_value_mem
  | some v =>
    by_cases hv : v = 0
    · right
      have e : gather_order_value q rng = rng.default_order_value := by
        unfold gather_order_value
        rw [h]
        exact if_pos hv
      rw [e]
      exact rng.default_order_value_mem
    · left
      refine ⟨v, rfl, Nat.pos_of_ne_zero hv, ?_⟩
      unfold gather_order_value
      rw [h]
      exact if_neg hv

/-! ## C9: severity modifiers -/

/-- C9: the severity score of `orchestrate_resolution_plan` is the base
category severity plus exactly 15 for high-anger words (else exactly 10 for
frustration words, mutually exclusively, anger first) plus exactly 20 for
repeat-complaint words. -/
theorem severity_modifiers (issue_details : String) :
    orchestrate_severity issue_details =
      orchestrate_base_severity (lc issue_details) +
        (if hasAny (lc issue_details) anger_words then 15
         else if hasAny (lc issue_details) frustration_words then 10 else 0) +
        (if hasAny (lc issue_details) repeat_words then 20 else 0) := by
  unfold orchestrate_severity
  cases ha : hasAny (lc issue_details) anger_words <;>
    cases hf : hasAny (lc issue_details) frustration_words <;>
      cases hr : hasAny (lc issue_details) repeat_words <;>
        simp [ha, hf, hr]

/-! ## C3: mandatory escalation in the negotiation state machine -/

/-- C3 (spec-modelled): rejecting the Tier-3 offer always transitions to
ESCALATED; ESCALATED is terminal (every event leaves it unchanged, the
conversation is handed to a human); and no event sequence ever produces a
fourth tier. -/
theorem escalation_state_machine :
    (∀ s : NegoSt, s.state = NegotiationState.OFFER_MADE → s.tier = 3 →
      negoStep s NegoEvent.rejectOffer = ⟨NegotiationState.ESCALATED, 3⟩) ∧
    (∀ (s : NegoSt) (e : NegoEvent), s.state = NegotiationState.ESCALATED →
      negoStep s e = s) ∧
    (∀ evs : List NegoEvent, (negoRun evs).tier ≤ 3) := by
  have step_le : ∀ (s : NegoSt), s.tier ≤ 3 → ∀ e, (negoStep s e).tier ≤ 3 := by
    rintro ⟨st, t⟩ h e
    have ht : t ≤ 3 := h
    cases st <;> cases e <;>
      first
        | exact ht
        | (simp only [negoStep]
           first
             | omega
             | (split <;> dsimp only <;> omega))
  refine ⟨?_, ?_, ?_⟩
  · rintro ⟨st, t⟩ h1 h2
    have h1' : st = NegotiationState.OFFER_MADE := h1
    have h2' : t = 3 := h2
    subst h1'
    subst h2'
    decide
  · rintro ⟨st, t⟩ e h
    have h' : st = NegotiationState.ESCALATED := h
    subst h'
    cases e <;> rfl
  · intro evs
    suffices h : ∀ (l : List NegoEvent) (s : NegoSt), s.tier ≤ 3 →
        (l.foldl negoStep s).tier ≤ 3 by
      exact h evs negoInit (by decide)
    intro l
    induction l with
    | nil => intro s hs; exact hs
    | cons e rest ih =>
      intro s hs
      exact ih (negoStep s e) (step_le s hs e)

/-- Witness for C3: the concrete Tier-3 rejection escalates, and ESCALATED
absorbs further events. -/
theorem escalation_state_machine_witness :
    negoStep ⟨NegotiationState.OFFER_MADE, 3⟩ NegoEvent.rejectOffer =
      ⟨NegotiationState.ESCALATED, 3⟩ ∧
    negoStep ⟨NegotiationState.ESCALATED, 3⟩ NegoEvent.acceptOffer =
      ⟨NegotiationState.ESCALATED, 3⟩ :=
  ⟨escalation_state_machine.1 ⟨NegotiationState.OFFER_MADE, 3⟩ rfl rfl,
    escalation_state_machine.2.1 ⟨NegotiationState.ESCALATED, 3⟩ NegoEvent.acceptOffer rfl⟩

end Synapse
